import Mathlib

/-!
Verification development for the Page-Pilot automated student responder.

Shallow embedding of the four source modules:
  evaluation_service.py  (submit_evaluation with bounded exponential backoff)
  github_service.py      (create_or_update_file, create_repo_and_push, enable_github_pages)
  app.py                 (webhook_endpoint ingress validation, process_assignment pipeline)

Network effects are made explicit: the outcome of each external HTTP call is a
parameter of the embedded function, and state of the hosting provider is an
explicit World value threaded through the publisher.
-/

/-! Evaluation service (src/evaluation_service.py). -/

/-- Outcome of one HTTP POST to the evaluation endpoint: either a response with
a status code, or a transport-level exception. -/
inductive AttemptOutcome
  | status (code : Nat)
  | fault
deriving DecidableEq, Repr

/-- The code treats an attempt as successful exactly when the response status
code is 200; a transport fault is never a success. -/
def attemptSucceeds : AttemptOutcome → Bool
  | AttemptOutcome.status c => c == 200
  | AttemptOutcome.fault => false

/-- max_retries = 5 in submit_evaluation. -/
def max_retries : Nat := 5

/-- backoff_delays = [1, 2, 4, 8, 16] seconds in submit_evaluation. -/
def backoff_delays : List Nat := [1, 2, 4, 8, 16]

/-- Message of the exception raised after exhausting all attempts. -/
def exhaustionMessage (evaluation_url : String) : String :=
  "Failed to submit evaluation to " ++ evaluation_url ++ " after " ++
    toString max_retries ++ " retries"

/-- Observable trace of one submit_evaluation run: how many POST attempts were
made, the sleeps performed in order, and the exception message if the function
raised instead of returning normally. -/
structure SubmitTrace where
  attempts : Nat
  waits : List Nat
  error : Option String
deriving DecidableEq, Repr

/-- The retry loop of submit_evaluation, one list element per remaining value
of the loop variable. A success returns at once; a failed attempt sleeps
backoff_delays[attempt] only when attempt < max_retries - 1; falling off the
end of the loop raises. -/
def submitLoop (evaluation_url : String) (o : Nat → AttemptOutcome) :
    List Nat → SubmitTrace
  | [] => ⟨0, [], some (exhaustionMessage evaluation_url)⟩
  | attempt :: rest =>
    if attemptSucceeds (o attempt) then
      ⟨1, [], none⟩
    else
      let r := submitLoop evaluation_url o rest
      if attempt < max_retries - 1 then
        ⟨r.attempts + 1, backoff_delays.getD attempt 0 :: r.waits, r.error⟩
      else
        ⟨r.attempts + 1, r.waits, r.error⟩

/-- submit_evaluation from src/evaluation_service.py: the for loop runs the
attempt index over range(max_retries); the outcome of the k-th POST is o k. -/
def submit_evaluation (evaluation_url : String) (o : Nat → AttemptOutcome) :
    SubmitTrace :=
  submitLoop evaluation_url o (List.range max_retries)

/-! Webhook ingress (src/app.py, webhook_endpoint). -/

/-- Possible responses of the webhook endpoint. An HTTPException raised by the
handler becomes an HTTP error response with the raised status; the other two
constructors are the status-200 JSON bodies the handler returns. -/
inductive WebhookResponse
  | httpError (status : Nat) (detail : String)
  | rejection (reason : String)
  | ok
deriving DecidableEq, Repr

/-- webhook_endpoint from src/app.py. The first component is the response, the
second is whether background_tasks.add_task was called, that is, whether an
orchestrator run was scheduled for the request. The configured secret is read
from the SECRET_KEY environment variable, modelled as an Option; Python
truthiness makes an empty configured string behave like an absent one. -/
def webhook_endpoint (expected_secret : Option String)
    (presented_secret : String) : WebhookResponse × Bool :=
  match expected_secret with
  | none => (WebhookResponse.httpError 500 "Server configuration error", false)
  | some s =>
    if s = "" then
      (WebhookResponse.httpError 500 "Server configuration error", false)
    else if presented_secret ≠ s then
      (WebhookResponse.rejection "invalid secret", false)
    else
      (WebhookResponse.ok, true)

/-! Pipeline orchestrator (src/app.py, process_assignment). -/

/-- The three stages of one pipeline run. -/
inductive Stage
  | generating
  | publishing
  | reporting
deriving DecidableEq, Repr

/-- Observable outcome of one process_assignment run: which stages were
invoked, in invocation order, and the error message logged by the except
handler when some stage raised. The run itself always terminates normally:
every exception is caught inside the function. -/
structure RunLog where
  trace : List Stage
  logged_error : Option String
deriving DecidableEq, Repr

/-- process_assignment from src/app.py. The three awaited collaborators
generate_static_site, create_repo_and_push and submit_evaluation are passed as
stage functions that either return a value or raise; the function runs them in
source order inside one try block whose except clause only logs. -/
def process_assignment {A B : Type} (gen : Except String A)
    (pub : A → Except String B) (rep : B → Except String Unit) : RunLog :=
  match gen with
  | Except.error e => ⟨[Stage.generating], some e⟩
  | Except.ok files =>
    match pub files with
    | Except.error e => ⟨[Stage.generating, Stage.publishing], some e⟩
    | Except.ok pr =>
      match rep pr with
      | Except.error e =>
        ⟨[Stage.generating, Stage.publishing, Stage.reporting], some e⟩
      | Except.ok _ =>
        ⟨[Stage.generating, Stage.publishing, Stage.reporting], none⟩

/-! GitHub service (src/github_service.py). -/

/-- A GithubException, identified by its HTTP status. -/
structure GHError where
  status : Nat
deriving DecidableEq, Repr

/-- One file stored in a repository: its path, its current version token (the
sha the contents API reports for the path) and its content. -/
structure FileEntry where
  path : String
  sha : Nat
  content : String
deriving DecidableEq, Repr

/-- State of one hosted repository. Version tokens and commit identifiers are
drawn from the counter nextSha, so every successful write produces a token
distinct from all earlier ones. Commits are listed newest first, matching
repo.get_commits(). -/
structure Repo where
  name : String
  files : List FileEntry
  commits : List Nat
  nextSha : Nat
deriving DecidableEq, Repr

/-- repo.get_contents(path): the current entry at the path, or a 404
GithubException when the path does not exist. -/
def get_contents (repo : Repo) (path : String) : Except GHError FileEntry :=
  match repo.files.find? (fun f => f.path == path) with
  | some f => Except.ok f
  | none => Except.error ⟨404⟩

/-- repo.update_file(path, message, content, sha): a conditional write. It
succeeds only when the presented version token equals the current token of the
path; a stale token is a 409 GithubException, a missing path a 404. -/
def update_file (repo : Repo) (path content : String) (sha : Nat) :
    Except GHError Repo :=
  match repo.files.find? (fun f => f.path == path) with
  | none => Except.error ⟨404⟩
  | some f =>
    if f.sha = sha then
      Except.ok
        { repo with
          files := repo.files.map
            (fun g => if g.path == path then ⟨path, repo.nextSha, content⟩ else g),
          commits := repo.nextSha :: repo.commits,
          nextSha := repo.nextSha + 1 }
    else
      Except.error ⟨409⟩

/-- repo.create_file(path, message, content): creates the path; a 422
GithubException when it already exists. -/
def create_file (repo : Repo) (path content : String) : Except GHError Repo :=
  match repo.files.find? (fun f => f.path == path) with
  | some _ => Except.error ⟨422⟩
  | none =>
    Except.ok
      { repo with
        files := repo.files ++ [⟨path, repo.nextSha, content⟩],
        commits := repo.nextSha :: repo.commits,
        nextSha := repo.nextSha + 1 }

/-- create_or_update_file from src/github_service.py. The interfere argument
models a concurrent external edit to the repository happening between the
content read and the subsequent write; a sequential run is interfere = id.
The Python code tries get_contents followed by update_file with the sha it
read; a GithubException with status 404 from either call falls into the
except branch, which calls create_file; any other GithubException is
re-raised. -/
def create_or_update_file (interfere : Repo → Repo) (repo : Repo)
    (path content message : String) : Except GHError Repo :=
  match (match get_contents repo path with
         | Except.error e => Except.error e
         | Except.ok cur => update_file (interfere repo) path content cur.sha) with
  | Except.ok r => Except.ok r
  | Except.error e =>
    if e.status = 404 then create_file (interfere repo) path content
    else Except.error e

/-- Python or on strings: the left operand unless it is falsy (empty). -/
def orElseStr (a : Option String) (b : String) : String :=
  match a with
  | some s => if s = "" then b else s
  | none => b

/-- generate_mit_license from src/github_service.py. The year comes from the
wall clock and is passed explicitly; owner falls back from the owner_name
argument to the GITHUB_USER environment variable to the literal Owner. -/
def generate_mit_license (owner_name github_user : Option String)
    (year : Nat) : String :=
  "MIT License\n\nCopyright (c) " ++ toString year ++ " " ++
    orElseStr owner_name (orElseStr github_user "Owner") ++
    "\n\nPermission is hereby granted, free of charge, to any person obtaining a copy\nof this software and associated documentation files (the \"Software\"), to deal\nin the Software without restriction, including without limitation the rights\nto use, copy, modify, merge, publish, distribute, sublicense, and/or sell\ncopies of the Software, and to permit persons to whom the Software is\nfurnished to do so, subject to the following conditions:\n\nThe above copyright notice and this permission notice shall be included in all\ncopies or substantial portions of the Software.\n\nTHE SOFTWARE IS PROVIDED \"AS IS\", WITHOUT WARRANTY OF ANY KIND, EXPRESS OR\nIMPLIED, INCLUDING BUT NOT LIMITED TO THE WARRANTIES OF MERCHANTABILITY,\nFITNESS FOR A PARTICULAR PURPOSE AND NONINFRINGEMENT. IN NO EVENT SHALL THE\nAUTHORS OR COPYRIGHT HOLDERS BE LIABLE FOR ANY CLAIM, DAMAGES OR OTHER\nLIABILITY, WHETHER IN AN ACTION OF CONTRACT, TORT OR OTHERWISE, ARISING FROM,\nOUT OF OR IN CONNECTION WITH THE SOFTWARE OR THE USE OR OTHER DEALINGS IN THE\nSOFTWARE.\n"

/-- Outcome of the httpx POST made by enable_github_pages: a response with a
status code and body text, or a transport-level exception. -/
inductive HttpResult
  | status (code : Nat) (text : String)
  | fault (msg : String)
deriving DecidableEq, Repr

/-- enable_github_pages from src/github_service.py. Statuses 201 and 204 and
the already-enabled conflict status 409 yield True; any other status logs a
warning and yields False; a transport fault logs an error and yields False.
No exception ever escapes this function. -/
def enable_github_pages (resp : HttpResult) : Bool :=
  match resp with
  | HttpResult.status code _ =>
    if code = 201 ∨ code = 204 then true
    else if code = 409 then true
    else false
  | HttpResult.fault _ => false

/-- State of the GitHub account: the repositories owned by the user. -/
structure World where
  repos : List Repo
deriving DecidableEq, Repr

/-- user.get_repo(name): first repository with the given name, if any. -/
def World.findRepo (w : World) (name : String) : Option Repo :=
  w.repos.find? (fun x => x.name == name)

/-- Commit the final state of the repository the run mutated in place back
into the account state, replacing the entry with the same name. -/
def World.setRepo (w : World) (r : Repo) : World :=
  ⟨w.repos.map (fun x => if x.name == r.name then r else x)⟩

/-- Errors create_repo_and_push can raise: the ValueError raised for missing
configuration, a GithubException propagating from a file write, and the
IndexError a commits[0] access on an empty commit list would raise. -/
inductive PubError
  | valueError (msg : String)
  | gh (e : GHError)
  | indexError
deriving DecidableEq, Repr

/-- The tuple returned by a successful create_repo_and_push. -/
structure PublishResult where
  repo_url : String
  commit_sha : Nat
  pages_url : String
deriving DecidableEq, Repr

/-- Repository name derivation: task dash the first 8 hex digits of the md5
of the task. The md5 hexdigest function comes from the hashlib library and is
passed as a parameter; nothing below depends on its internals. -/
def repoNameOf (md5hex : String → String) (task : String) : String :=
  task ++ "-" ++ (md5hex task).take 8

/-- The for loop of create_repo_and_push over the caller-supplied files: each
entry is written with create_or_update_file and a propagating GithubException
aborts the publish. -/
def pushFiles (interfere : Repo → Repo) (repo : Repo) :
    List (String × String) → Except GHError Repo
  | [] => Except.ok repo
  | (path, content) :: rest =>
    match create_or_update_file interfere repo path content
        ("Add/update " ++ path) with
    | Except.error e => Except.error e
    | Except.ok r => pushFiles interfere r rest

/-- Tail of create_repo_and_push once the repository object is in hand: push
the caller files, append the LICENSE write, read commits[0], call
enable_github_pages discarding its Boolean result, and build the returned
URL tuple from the account login and the repository name. -/
def pushAndFinish (interfere : Repo → Repo) (login : String) (year : Nat)
    (pagesResp : HttpResult) (github_user : Option String) (world0 : World)
    (repo_name : String) (repo0 : Repo) (files : List (String × String)) :
    Except PubError (PublishResult × World) :=
  match pushFiles interfere repo0 files with
  | Except.error e => Except.error (PubError.gh e)
  | Except.ok repo1 =>
    match create_or_update_file interfere repo1 "LICENSE"
        (generate_mit_license github_user github_user year) "Add MIT License" with
    | Except.error e => Except.error (PubError.gh e)
    | Except.ok repo2 =>
      match repo2.commits with
      | [] => Except.error PubError.indexError
      | sha :: _ =>
        let _ := enable_github_pages pagesResp
        Except.ok
          (⟨"https://github.com/" ++ login ++ "/" ++ repo_name, sha,
            "https://" ++ login ++ ".github.io/" ++ repo_name ++ "/"⟩,
           World.setRepo world0 repo2)

/-- create_repo_and_push from src/github_service.py. Raises ValueError when
GITHUB_TOKEN or GITHUB_USER is unset or empty; then resolves the repository
name from the task, reuses the repository when user.get_repo finds it and
creates a fresh public uninitialised one otherwise, and finishes with
pushAndFinish. The createErr argument is the outcome of the user.create_repo
call when that branch is taken: none is a successful creation, some e models
the call raising GithubException e, which happens inside the except clause of
the get_repo try and therefore propagates out of the function. The login
argument is user.login of the authenticated client; pagesResp is the outcome
of the Pages REST call. -/
def create_repo_and_push (md5hex : String → String) (interfere : Repo → Repo)
    (login : String) (year : Nat) (pagesResp : HttpResult)
    (createErr : Option GHError) (github_token github_user : Option String)
    (world : World) (task : String) (files : List (String × String)) :
    Except PubError (PublishResult × World) :=
  if github_token = none ∨ github_token = some "" then
    Except.error (PubError.valueError "GITHUB_TOKEN environment variable not set")
  else if github_user = none ∨ github_user = some "" then
    Except.error (PubError.valueError "GITHUB_USER environment variable not set")
  else
    match world.findRepo (repoNameOf md5hex task) with
    | some repo0 =>
      pushAndFinish interfere login year pagesResp github_user world
        (repoNameOf md5hex task) repo0 files
    | none =>
      match createErr with
      | some e => Except.error (PubError.gh e)
      | none =>
        pushAndFinish interfere login year pagesResp github_user
          ⟨world.repos ++ [⟨repoNameOf md5hex task, [], [], 0⟩]⟩
          (repoNameOf md5hex task) (⟨repoNameOf md5hex task, [], [], 0⟩ : Repo)
          files

/-- Detects the outcome an IndexError from the commits[0] access would be. -/
def isIndexError : Except PubError (PublishResult × World) → Bool
  | Except.error PubError.indexError => true
  | _ => false

/-- Whether a publish run returned its result tuple rather than raising. -/
def publishOk : Except PubError (PublishResult × World) → Bool
  | Except.ok _ => true
  | Except.error _ => false

/-! Concrete instances used to evaluate the model on specific inputs. -/

/-- A fixed stand-in for the md5 hexdigest of any task string. -/
def cMd5 : String → String := fun _ => "0a1b2c3d9e8f7a6b0a1b2c3d9e8f7a6b"

/-- A repository holding one published file at version token 0. -/
def cRepo : Repo := ⟨"landing-0a1b2c3d", [⟨"index.html", 0, "old"⟩], [0], 1⟩

/-- An account state owning exactly cRepo. -/
def cWorld : World := ⟨[cRepo]⟩

/-- A concurrent external edit: between the read and the write of a publish,
some other writer rewrites index.html, so its version token moves on. -/
def cInterfere : Repo → Repo := fun r =>
  { r with
    files := r.files.map
      (fun f => if f.path == "index.html" then ⟨"index.html", r.nextSha, "edited elsewhere"⟩ else f),
    commits := r.nextSha :: r.commits,
    nextSha := r.nextSha + 1 }

/-! Theorems. Evaluation Reporter: claims C1, C6 and C7. -/

theorem submit_evaluation_eq_loop (url : String) (o : Nat → AttemptOutcome) :
    submit_evaluation url o = submitLoop url o [0, 1, 2, 3, 4] := rfl

/-- Claim C1, counterexample. On a delivery in which every attempt fails, the
reporter makes 5 attempts but waits 1, 2, 4, 8 seconds only: the claimed wait
sequence 1, 2, 4, 8, 16 is not what the code performs, because no wait follows
the terminal fifth attempt and the 16 second entry is never read. -/
theorem delivery_waits_cex :
    (submit_evaluation "http://eval.example" (fun _ => AttemptOutcome.status 500)).waits
        ≠ [1, 2, 4, 8, 16] ∧
    (submit_evaluation "http://eval.example" (fun _ => AttemptOutcome.status 500)).waits
        = [1, 2, 4, 8] ∧
    (submit_evaluation "http://eval.example" (fun _ => AttemptOutcome.status 500)).attempts
        = 5 := by
  refine ⟨by decide, rfl, rfl⟩

/-- Claim C1, amended. For a delivery in which every attempt fails, the
Evaluation Reporter makes exactly 5 attempts, never a 6th, and performs
exactly the waits 1, 2, 4, 8 seconds in that order between consecutive
attempts; no wait follows the terminal fifth attempt. -/
theorem delivery_all_fail_trace (url : String) (o : Nat → AttemptOutcome)
    (h : ∀ k, k < max_retries → attemptSucceeds (o k) = false) :
    (submit_evaluation url o).attempts = 5 ∧
    (submit_evaluation url o).waits = [1, 2, 4, 8] := by
  have h0 := h 0 (by decide)
  have h1 := h 1 (by decide)
  have h2 := h 2 (by decide)
  have h3 := h 3 (by decide)
  have h4 := h 4 (by decide)
  rw [submit_evaluation_eq_loop]
  simp [submitLoop, h0, h1, h2, h3, h4, max_retries, backoff_delays]

/-- Claim C1, witness. -/
theorem delivery_all_fail_trace_wit :
    (submit_evaluation "http://eval.example/cb" (fun _ => AttemptOutcome.fault)).attempts = 5 ∧
    (submit_evaluation "http://eval.example/cb" (fun _ => AttemptOutcome.fault)).waits
        = [1, 2, 4, 8] :=
  delivery_all_fail_trace "http://eval.example/cb" (fun _ => AttemptOutcome.fault)
    (fun _ _ => rfl)

/-- Claim C6. When all 5 attempts fail, submit_evaluation raises: the run ends
with the exhaustion exception rather than a normal return, and makes exactly
the 5 budgeted attempts. -/
theorem delivery_exhausted_raises (url : String) (o : Nat → AttemptOutcome)
    (h : ∀ k, k < max_retries → attemptSucceeds (o k) = false) :
    (submit_evaluation url o).error = some (exhaustionMessage url) ∧
    (submit_evaluation url o).attempts = 5 := by
  have h0 := h 0 (by decide)
  have h1 := h 1 (by decide)
  have h2 := h 2 (by decide)
  have h3 := h 3 (by decide)
  have h4 := h 4 (by decide)
  rw [submit_evaluation_eq_loop]
  simp [submitLoop, h0, h1, h2, h3, h4, max_retries, backoff_delays]

/-- Claim C6, witness. -/
theorem delivery_exhausted_raises_wit :
    (submit_evaluation "http://cb.example" (fun _ => AttemptOutcome.status 503)).error
        = some (exhaustionMessage "http://cb.example") ∧
    (submit_evaluation "http://cb.example" (fun _ => AttemptOutcome.status 503)).attempts = 5 :=
  delivery_exhausted_raises "http://cb.example" (fun _ => AttemptOutcome.status 503)
    (fun _ _ => rfl)

/-- Claim C7. An attempt succeeds exactly on HTTP status 200 and a transport
fault never succeeds; and when the first success happens on attempt index k,
the reporter returns normally right there: exactly k + 1 attempts are made and
exactly the k waits preceding the success are performed. -/
theorem delivery_success_stops (url : String) (o : Nat → AttemptOutcome)
    (k : Nat) (hk : k < max_retries)
    (hfail : ∀ j, j < k → attemptSucceeds (o j) = false)
    (hsucc : attemptSucceeds (o k) = true) :
    (∀ c, attemptSucceeds (AttemptOutcome.status c) = true ↔ c = 200) ∧
    attemptSucceeds AttemptOutcome.fault = false ∧
    submit_evaluation url o = ⟨k + 1, backoff_delays.take k, none⟩ := by
  refine ⟨fun c => by simp [attemptSucceeds], rfl, ?_⟩
  rw [submit_evaluation_eq_loop]
  have hk5 : k < 5 := hk
  interval_cases k
  · simp [submitLoop, hsucc]
  · have h0 := hfail 0 (by omega)
    simp [submitLoop, h0, hsucc, max_retries, backoff_delays]
  · have h0 := hfail 0 (by omega)
    have h1 := hfail 1 (by omega)
    simp [submitLoop, h0, h1, hsucc, max_retries, backoff_delays]
  · have h0 := hfail 0 (by omega)
    have h1 := hfail 1 (by omega)
    have h2 := hfail 2 (by omega)
    simp [submitLoop, h0, h1, h2, hsucc, max_retries, backoff_delays]
  · have h0 := hfail 0 (by omega)
    have h1 := hfail 1 (by omega)
    have h2 := hfail 2 (by omega)
    have h3 := hfail 3 (by omega)
    simp [submitLoop, h0, h1, h2, h3, hsucc, max_retries, backoff_delays]

/-- Claim C7, witness: failures on attempts 0 and 1, success on attempt 2. -/
theorem delivery_success_stops_wit :
    submit_evaluation "http://cb.example/done"
        (fun j => if j < 2 then AttemptOutcome.status 500 else AttemptOutcome.status 200)
      = ⟨3, backoff_delays.take 2, none⟩ :=
  (delivery_success_stops "http://cb.example/done"
      (fun j => if j < 2 then AttemptOutcome.status 500 else AttemptOutcome.status 200)
      2 (by decide)
      (fun j hj => by interval_cases j <;> rfl)
      rfl).2.2

/-! Ingress Validator: claims C4 and C9. -/

/-- Claim C4. With a nonempty configured secret, any request presenting a
different secret gets the structured rejection response and no background
pipeline is scheduled. -/
theorem reject_bad_secret_no_schedule (expected presented : String)
    (hconf : expected ≠ "") (hdiff : presented ≠ expected) :
    webhook_endpoint (some expected) presented
      = (WebhookResponse.rejection "invalid secret", false) := by
  simp [webhook_endpoint, hconf, hdiff]

/-- Claim C4, witness. -/
theorem reject_bad_secret_no_schedule_wit :
    webhook_endpoint (some "expected-key-1") "wrong-key"
      = (WebhookResponse.rejection "invalid secret", false) :=
  reject_bad_secret_no_schedule "expected-key-1" "wrong-key"
    (by decide) (by decide)

/-- Claim C9, counterexample. With the configured secret absent the endpoint
does not answer with a status-ok body carrying a rejection marker: it raises
an HTTPException with status 500, a server error response. -/
theorem config_absent_cex :
    webhook_endpoint none "any-presented-secret"
      = (WebhookResponse.httpError 500 "Server configuration error", false) := rfl

/-- Claim C9, amended. When the configured expected secret is absent, or
configured empty, the endpoint short-circuits admission with an HTTP 500
server error response, an outcome distinct from the status-ok structured
rejection that a wrong credential receives; in both cases no background
pipeline is scheduled. -/
theorem config_absent_http500 (s : String) :
    webhook_endpoint none s
        = (WebhookResponse.httpError 500 "Server configuration error", false) ∧
    webhook_endpoint (some "") s
        = (WebhookResponse.httpError 500 "Server configuration error", false) ∧
    (webhook_endpoint none s).1 ≠ (webhook_endpoint (some "k") "not-k").1 := by
  refine ⟨rfl, rfl, by simp [webhook_endpoint]⟩

/-- Claim C9, witness. -/
theorem config_absent_http500_wit :
    webhook_endpoint none "whatever"
        = (WebhookResponse.httpError 500 "Server configuration error", false) ∧
    webhook_endpoint (some "") "whatever"
        = (WebhookResponse.httpError 500 "Server configuration error", false) ∧
    (webhook_endpoint none "whatever").1 ≠ (webhook_endpoint (some "k") "not-k").1 :=
  config_absent_http500 "whatever"

/-! Pipeline Orchestrator: claim C5. -/

/-- Claim C5. One orchestrator run invokes its stages strictly in the order
Generating, Publishing, Reporting, never reordering or skipping forward; and
when the Generating stage fails, neither Publishing nor Reporting is invoked
and the failure is contained: the run returns a log with the error recorded,
no exception escaping, since process_assignment is a total function into
RunLog. -/
theorem pipeline_stage_order {A B : Type} (gen : Except String A)
    (pub : A → Except String B) (rep : B → Except String Unit) :
    ((process_assignment gen pub rep).trace = [Stage.generating] ∨
     (process_assignment gen pub rep).trace = [Stage.generating, Stage.publishing] ∨
     (process_assignment gen pub rep).trace
        = [Stage.generating, Stage.publishing, Stage.reporting]) ∧
    (∀ e, gen = Except.error e →
      process_assignment gen pub rep = ⟨[Stage.generating], some e⟩) := by
  constructor
  · cases gen with
    | error e => exact Or.inl rfl
    | ok a =>
      cases hpub : pub a with
      | error e => exact Or.inr (Or.inl (by simp [process_assignment, hpub]))
      | ok b =>
        cases hrep : rep b with
        | error e => exact Or.inr (Or.inr (by simp [process_assignment, hpub, hrep]))
        | ok u => exact Or.inr (Or.inr (by simp [process_assignment, hpub, hrep]))
  · intro e he
    subst he
    rfl

/-- Claim C5, witness: a failing Generating stage yields a run that only
invoked Generating and logged the failure. -/
theorem pipeline_stage_order_wit :
    process_assignment (Except.error "generation failed" : Except String Unit)
        (fun _ => Except.ok ()) (fun _ => Except.ok ())
      = ⟨[Stage.generating], some "generation failed"⟩ :=
  (pipeline_stage_order (Except.error "generation failed" : Except String Unit)
      (fun _ => Except.ok ()) (fun _ => Except.ok ())).2
    "generation failed" rfl

/-! Repository Publisher: helper lemmas. -/

theorem update_file_commits (repo : Repo) (p c : String) (sha : Nat) (r : Repo)
    (h : update_file repo p c sha = Except.ok r) : r.commits ≠ [] := by
  unfold update_file at h
  split at h
  · exact absurd h (by simp)
  · split at h
    · simp only [Except.ok.injEq] at h
      subst h
      simp
    · exact absurd h (by simp)

theorem create_file_commits (repo : Repo) (p c : String) (r : Repo)
    (h : create_file repo p c = Except.ok r) : r.commits ≠ [] := by
  unfold create_file at h
  split at h
  · exact absurd h (by simp)
  · simp only [Except.ok.injEq] at h
    subst h
    simp

theorem couf_ok_commits (g : Repo → Repo) (repo : Repo) (p c m : String)
    (r : Repo) (h : create_or_update_file g repo p c m = Except.ok r) :
    r.commits ≠ [] := by
  unfold create_or_update_file at h
  split at h
  · rename_i r1 heq
    simp only [Except.ok.injEq] at h
    subst h
    split at heq
    · exact absurd heq (by simp)
    · exact update_file_commits _ _ _ _ _ heq
  · rename_i e heq
    split at h
    · exact create_file_commits _ _ _ _ h
    · exact absurd h (by simp)

theorem couf_id_ok (repo : Repo) (p c m : String) :
    ∃ r, create_or_update_file id repo p c m = Except.ok r ∧
      r.name = repo.name := by
  cases hf : repo.files.find? (fun f => f.path == p) with
  | some f =>
    refine ⟨{ repo with
        files := repo.files.map
          (fun g => if g.path == p then ⟨p, repo.nextSha, c⟩ else g),
        commits := repo.nextSha :: repo.commits,
        nextSha := repo.nextSha + 1 }, ?_, rfl⟩
    simp [create_or_update_file, get_contents, update_file, hf]
  | none =>
    refine ⟨{ repo with
        files := repo.files ++ [⟨p, repo.nextSha, c⟩],
        commits := repo.nextSha :: repo.commits,
        nextSha := repo.nextSha + 1 }, ?_, rfl⟩
    simp [create_or_update_file, get_contents, create_file, hf]

theorem pushFiles_id_ok (files : List (String × String)) (repo : Repo) :
    ∃ r, pushFiles id repo files = Except.ok r ∧ r.name = repo.name := by
  induction files generalizing repo with
  | nil => exact ⟨repo, rfl, rfl⟩
  | cons pc rest ih =>
    obtain ⟨p, c⟩ := pc
    obtain ⟨r1, h1, hn1⟩ := couf_id_ok repo p c ("Add/update " ++ p)
    obtain ⟨r2, h2, hn2⟩ := ih r1
    exact ⟨r2, by simp [pushFiles, h1, h2], by rw [hn2, hn1]⟩

theorem findRepo_name (w : World) (n : String) (r : Repo)
    (h : w.findRepo n = some r) : r.name = n := by
  have := List.find?_some h
  simpa using this

theorem find_append_of_none {α : Type} (p : α → Bool) (l1 l2 : List α)
    (h : l1.find? p = none) : (l1 ++ l2).find? p = l2.find? p := by
  induction l1 with
  | nil => simp
  | cons a t ih =>
    cases hpa : p a with
    | true => simp [List.find?, hpa] at h
    | false =>
      simp only [List.find?, hpa] at h
      simpa [List.find?, hpa] using ih h

theorem findRepo_setRepo_list (l : List Repo) (r : Repo)
    (h : (l.find? (fun x => x.name == r.name)).isSome = true) :
    (l.map (fun x => if x.name == r.name then r else x)).find?
        (fun x => x.name == r.name) = some r := by
  induction l with
  | nil => simp at h
  | cons a t ih =>
    cases hn : (a.name == r.name) with
    | true => simp [List.find?, hn]
    | false =>
      simp only [List.find?, hn] at h
      simpa [List.find?, hn] using ih h

theorem findRepo_setRepo (w : World) (r : Repo)
    (h : (w.findRepo r.name).isSome = true) :
    (w.setRepo r).findRepo r.name = some r := by
  unfold World.findRepo at h
  unfold World.findRepo World.setRepo
  exact findRepo_setRepo_list w.repos r h

theorem setRepo_length (w : World) (r : Repo) :
    (w.setRepo r).repos.length = w.repos.length := by
  unfold World.setRepo
  simp

theorem pushAndFinish_id_ok (login : String) (year : Nat) (resp : HttpResult)
    (gu : Option String) (w0 : World) (rn : String) (r0 : Repo)
    (files : List (String × String))
    (hname : r0.name = rn) (hw : (w0.findRepo rn).isSome = true) :
    ∃ pr w2,
      pushAndFinish id login year resp gu w0 rn r0 files = Except.ok (pr, w2) ∧
      pr.repo_url = "https://github.com/" ++ login ++ "/" ++ rn ∧
      pr.pages_url = "https://" ++ login ++ ".github.io/" ++ rn ++ "/" ∧
      (w2.findRepo rn).isSome = true ∧
      w2.repos.length = w0.repos.length := by
  obtain ⟨repo1, h1, hn1⟩ := pushFiles_id_ok files r0
  obtain ⟨repo2, h2, hn2⟩ :=
    couf_id_ok repo1 "LICENSE" (generate_mit_license gu gu year) "Add MIT License"
  have hc : repo2.commits ≠ [] := couf_ok_commits id repo1 _ _ _ repo2 h2
  have hname2 : repo2.name = rn := by rw [hn2, hn1, hname]
  cases hcm : repo2.commits with
  | nil => exact absurd hcm hc
  | cons sha rest =>
    refine ⟨⟨"https://github.com/" ++ login ++ "/" ++ rn, sha,
        "https://" ++ login ++ ".github.io/" ++ rn ++ "/"⟩,
      World.setRepo w0 repo2, ?_, rfl, rfl, ?_, ?_⟩
    · simp [pushAndFinish, h1, h2, hcm]
    · rw [← hname2, findRepo_setRepo w0 repo2 (by rw [hname2]; exact hw)]
      rfl
    · exact setRepo_length w0 repo2

theorem pushAndFinish_no_index (g : Repo → Repo) (login : String) (year : Nat)
    (resp : HttpResult) (gu : Option String) (w0 : World) (rn : String)
    (r0 : Repo) (files : List (String × String)) :
    isIndexError (pushAndFinish g login year resp gu w0 rn r0 files) = false := by
  cases hp : pushFiles g r0 files with
  | error e => simp [pushAndFinish, hp, isIndexError]
  | ok repo1 =>
    cases hl : create_or_update_file g repo1 "LICENSE"
        (generate_mit_license gu gu year) "Add MIT License" with
    | error e => simp [pushAndFinish, hp, hl, isIndexError]
    | ok repo2 =>
      have hc := couf_ok_commits g repo1 _ _ _ repo2 hl
      cases hcm : repo2.commits with
      | nil => exact absurd hcm hc
      | cons sha rest => simp [pushAndFinish, hp, hl, hcm, isIndexError]

theorem create_repo_and_push_id_ok (md5hex : String → String) (login : String)
    (year : Nat) (resp : HttpResult) (tok usr : String) (ht : tok ≠ "")
    (hu : usr ≠ "") (world : World) (task : String)
    (files : List (String × String)) :
    ∃ pr w2,
      create_repo_and_push md5hex id login year resp none (some tok) (some usr)
          world task files = Except.ok (pr, w2) ∧
      pr.repo_url = "https://github.com/" ++ login ++ "/" ++ repoNameOf md5hex task ∧
      pr.pages_url = "https://" ++ login ++ ".github.io/" ++ repoNameOf md5hex task ++ "/" ∧
      (w2.findRepo (repoNameOf md5hex task)).isSome = true ∧
      w2.repos.length =
        (if (world.findRepo (repoNameOf md5hex task)).isSome then
          world.repos.length
        else
          world.repos.length + 1) := by
  have hT : ¬((some tok : Option String) = none ∨ (some tok : Option String) = some "") := by
    simp [ht]
  have hU : ¬((some usr : Option String) = none ∨ (some usr : Option String) = some "") := by
    simp [hu]
  unfold create_repo_and_push
  rw [if_neg hT, if_neg hU]
  cases hf : world.findRepo (repoNameOf md5hex task) with
  | some r0 =>
    have hname : r0.name = repoNameOf md5hex task := findRepo_name world _ r0 hf
    have hw : (world.findRepo (repoNameOf md5hex task)).isSome = true := by
      rw [hf]; rfl
    obtain ⟨pr, w2, hp, hurl, hpage, hfind, hlen⟩ :=
      pushAndFinish_id_ok login year resp (some usr) world
        (repoNameOf md5hex task) r0 files hname hw
    exact ⟨pr, w2, hp, hurl, hpage, hfind, by rw [hlen]; simp⟩
  | none =>
    have hf0 : world.repos.find? (fun x => x.name == repoNameOf md5hex task) = none := hf
    have hw0 : ((⟨world.repos ++ [⟨repoNameOf md5hex task, [], [], 0⟩]⟩ : World).findRepo
        (repoNameOf md5hex task)).isSome = true := by
      unfold World.findRepo
      rw [find_append_of_none _ _ _ hf0]
      simp [List.find?]
    obtain ⟨pr, w2, hp, hurl, hpage, hfind, hlen⟩ :=
      pushAndFinish_id_ok login year resp (some usr)
        ⟨world.repos ++ [⟨repoNameOf md5hex task, [], [], 0⟩]⟩
        (repoNameOf md5hex task) (⟨repoNameOf md5hex task, [], [], 0⟩ : Repo)
        files rfl hw0
    refine ⟨pr, w2, hp, hurl, hpage, hfind, ?_⟩
    rw [hlen]
    simp

/-! Repository Publisher: claims C2, C3, C8 and C10. -/

/-- Claim C2, counterexample. A publish whose single file write hits a stale
version token, because a concurrent external edit moved the token between the
read and the conditional write, is fatal to the whole publish: the 409
GithubException propagates out of create_repo_and_push. The write is neither
retried nor turned into a non-fatal conflict outcome. -/
theorem stale_write_fatal_cex :
    create_repo_and_push cMd5 cInterfere "octocat" 2025 (HttpResult.status 201 "")
        none (some "token") (some "octocat") cWorld "landing"
        [("index.html", "new content")]
      = Except.error (PubError.gh ⟨409⟩) := rfl

/-- Claim C2, amended. A file write whose version token is stale is never
silently lost and never silently applied: the conditional write fails with the
conflict status 409, and since 409 is not the not-found status the exception
is re-raised by create_or_update_file. It is not retried and not reported as a
distinct non-fatal PublishConflict outcome; it propagates and aborts the whole
publish. -/
theorem stale_write_conflict (g : Repo → Repo) (repo : Repo)
    (path content message : String) (cur now : FileEntry)
    (hread : get_contents repo path = Except.ok cur)
    (hnow : get_contents (g repo) path = Except.ok now)
    (hstale : now.sha ≠ cur.sha) :
    create_or_update_file g repo path content message = Except.error ⟨409⟩ := by
  have hfind : (g repo).files.find? (fun f => f.path == path) = some now := by
    unfold get_contents at hnow
    split at hnow
    · simp only [Except.ok.injEq] at hnow
      rename_i f heq
      rw [heq, hnow]
    · exact absurd hnow (by simp)
  have hupd : update_file (g repo) path content cur.sha = Except.error ⟨409⟩ := by
    unfold update_file
    rw [hfind]
    simp [hstale]
  simp [create_or_update_file, hread, hupd]

/-- Claim C2, witness. -/
theorem stale_write_conflict_wit :
    create_or_update_file cInterfere cRepo "index.html" "new content" "m"
      = Except.error ⟨409⟩ :=
  stale_write_conflict cInterfere cRepo "index.html" "new content" "m"
    ⟨"index.html", 0, "old"⟩ ⟨"index.html", 1, "edited elsewhere"⟩
    rfl rfl (by decide)

/-- Claim C3, counterexample. A hosting-enable request answered with a plain
failure status makes enable_github_pages return False, yet create_repo_and_push
ignores that Boolean and still returns a successful PublishResult: the
hosting-enable failure does not propagate as a stage failure. -/
theorem pages_failure_swallowed_cex :
    enable_github_pages (HttpResult.status 500 "Internal Server Error") = false ∧
    publishOk (create_repo_and_push cMd5 id "octocat" 2025
        (HttpResult.status 500 "Internal Server Error") none (some "token")
        (some "octocat") ⟨[]⟩ "landing" []) = true :=
  ⟨rfl, rfl⟩

/-- Claim C3, amended. Repository-creation and file-write step failures do
propagate as stage failures that abort the publish, and the already-enabled
conflict status 409 is treated as success by enable_github_pages; but a
hosting-enable outcome that fails, any non 201, 204, 409 status or a
transport fault, does not abort the publish: enable_github_pages merely
returns False, create_repo_and_push discards that value, and the publish
still returns a successful PublishResult. The four conjuncts state, in order:
the 409 hosting conflict is success; a publish whose writes all succeed
returns a successful PublishResult regardless of the failing hosting-enable
outcome resp; a raising user.create_repo call aborts the publish with its
GithubException; a failing file write aborts the publish with its
GithubException. -/
theorem pages_failure_not_fatal (resp : HttpResult) (t : String)
    (md5hex : String → String) (interfere : Repo → Repo) (login : String)
    (year : Nat) (tok usr : String) (ht : tok ≠ "") (hu : usr ≠ "")
    (world0 world1 : World) (task : String) (files : List (String × String))
    (r0 : Repo) (ce e : GHError)
    (hfail : enable_github_pages resp = false)
    (hnone : world0.findRepo (repoNameOf md5hex task) = none)
    (hfound : world1.findRepo (repoNameOf md5hex task) = some r0)
    (hpf : pushFiles interfere r0 files = Except.error e) :
    enable_github_pages (HttpResult.status 409 t) = true ∧
    publishOk (create_repo_and_push md5hex id login year resp none (some tok)
        (some usr) world1 task files) = true ∧
    create_repo_and_push md5hex interfere login year resp (some ce) (some tok)
        (some usr) world0 task files = Except.error (PubError.gh ce) ∧
    create_repo_and_push md5hex interfere login year resp none (some tok)
        (some usr) world1 task files = Except.error (PubError.gh e) := by
  have hT : ¬((some tok : Option String) = none ∨ (some tok : Option String) = some "") := by
    simp [ht]
  have hU : ¬((some usr : Option String) = none ∨ (some usr : Option String) = some "") := by
    simp [hu]
  refine ⟨rfl, ?_, ?_, ?_⟩
  · obtain ⟨pr, w2, hp, _⟩ :=
      create_repo_and_push_id_ok md5hex login year resp tok usr ht hu world1 task files
    rw [hp]
    rfl
  · unfold create_repo_and_push
    rw [if_neg hT, if_neg hU, hnone]
  · unfold create_repo_and_push
    rw [if_neg hT, if_neg hU, hfound]
    simp [pushAndFinish, hpf]

/-- Claim C3, witness: a transport fault on the hosting-enable call leaves the
publish successful, while a raising create_repo call and a conflicting file
write each abort their publish. -/
theorem pages_failure_not_fatal_wit :
    enable_github_pages (HttpResult.status 409 "already enabled") = true ∧
    publishOk (create_repo_and_push cMd5 id "octocat" 2025
        (HttpResult.fault "connection reset") none (some "token")
        (some "octocat") cWorld "landing" [("index.html", "new content")]) = true ∧
    create_repo_and_push cMd5 cInterfere "octocat" 2025
        (HttpResult.fault "connection reset") (some ⟨422⟩) (some "token")
        (some "octocat") ⟨[]⟩ "landing" [("index.html", "new content")]
      = Except.error (PubError.gh ⟨422⟩) ∧
    create_repo_and_push cMd5 cInterfere "octocat" 2025
        (HttpResult.fault "connection reset") none (some "token")
        (some "octocat") cWorld "landing" [("index.html", "new content")]
      = Except.error (PubError.gh ⟨409⟩) :=
  pages_failure_not_fatal (HttpResult.fault "connection reset") "already enabled"
    cMd5 cInterfere "octocat" 2025 "token" "octocat" (by decide) (by decide)
    ⟨[]⟩ cWorld "landing" [("index.html", "new content")] cRepo ⟨422⟩ ⟨409⟩
    rfl rfl rfl rfl

/-- Claim C8. The repository name is the deterministic function of the task
given by task dash the first 8 hex digits of its md5, so two publish runs with
the same task address the same repository: both runs succeed, return the same
repository and pages URLs built from that name, and the second run finds the
repository already existing and creates no duplicate, leaving the number of
owned repositories unchanged. -/
theorem publish_idempotent_repo_name (md5hex : String → String) (login : String)
    (year : Nat) (resp : HttpResult) (tok usr : String) (ht : tok ≠ "")
    (hu : usr ≠ "") (world : World) (task : String)
    (files : List (String × String)) :
    ∃ pr1 w1 pr2 w2,
      create_repo_and_push md5hex id login year resp none (some tok) (some usr)
          world task files = Except.ok (pr1, w1) ∧
      create_repo_and_push md5hex id login year resp none (some tok) (some usr)
          w1 task files = Except.ok (pr2, w2) ∧
      pr1.repo_url = "https://github.com/" ++ login ++ "/" ++
        (task ++ "-" ++ (md5hex task).take 8) ∧
      pr2.repo_url = pr1.repo_url ∧
      pr2.pages_url = pr1.pages_url ∧
      w2.repos.length = w1.repos.length := by
  obtain ⟨pr1, w1, hp1, hurl1, hpage1, hfind1, hlen1⟩ :=
    create_repo_and_push_id_ok md5hex login year resp tok usr ht hu world task files
  obtain ⟨pr2, w2, hp2, hurl2, hpage2, hfind2, hlen2⟩ :=
    create_repo_and_push_id_ok md5hex login year resp tok usr ht hu w1 task files
  refine ⟨pr1, w1, pr2, w2, hp1, hp2, ?_, ?_, ?_, ?_⟩
  · rw [hurl1]
    rfl
  · rw [hurl2, hurl1]
  · rw [hpage2, hpage1]
  · rw [hlen2]
    simp [hfind1]

/-- Claim C8, witness. -/
theorem publish_idempotent_repo_name_wit :
    ∃ pr1 w1 pr2 w2,
      create_repo_and_push cMd5 id "octocat" 2025 (HttpResult.status 201 "")
          none (some "token") (some "octocat") ⟨[]⟩ "landing"
          [("index.html", "hello")] = Except.ok (pr1, w1) ∧
      create_repo_and_push cMd5 id "octocat" 2025 (HttpResult.status 201 "")
          none (some "token") (some "octocat") w1 "landing"
          [("index.html", "hello")] = Except.ok (pr2, w2) ∧
      pr1.repo_url = "https://github.com/" ++ "octocat" ++ "/" ++
        ("landing" ++ "-" ++ (cMd5 "landing").take 8) ∧
      pr2.repo_url = pr1.repo_url ∧
      pr2.pages_url = pr1.pages_url ∧
      w2.repos.length = w1.repos.length :=
  publish_idempotent_repo_name cMd5 "octocat" 2025 (HttpResult.status 201 "")
    "token" "octocat" (by decide) (by decide) ⟨[]⟩ "landing"
    [("index.html", "hello")]

/-- Claim C10. The LICENSE file is written after the caller-supplied files and
before the commit-list read, so whatever the input file list, the empty list
included, and whatever interference the writes encounter, create_repo_and_push
never fails with the IndexError of a first-element access on an empty commit
list: every successful LICENSE write leaves at least one commit, and every
earlier failure is a different, earlier exception. -/
theorem commit_access_safe (md5hex : String → String) (g : Repo → Repo)
    (login : String) (year : Nat) (resp : HttpResult)
    (createErr : Option GHError) (github_token github_user : Option String)
    (world : World) (task : String) (files : List (String × String)) :
    isIndexError (create_repo_and_push md5hex g login year resp createErr
        github_token github_user world task files) = false := by
  unfold create_repo_and_push
  split
  · rfl
  · split
    · rfl
    · cases hf : world.findRepo (repoNameOf md5hex task) with
      | some r0 =>
        exact pushAndFinish_no_index g login year resp github_user world
          (repoNameOf md5hex task) r0 files
      | none =>
        cases createErr with
        | some ce => rfl
        | none =>
          exact pushAndFinish_no_index g login year resp github_user
            ⟨world.repos ++ [⟨repoNameOf md5hex task, [], [], 0⟩]⟩
            (repoNameOf md5hex task) (⟨repoNameOf md5hex task, [], [], 0⟩ : Repo)
            files
